import Mathlib

/-!
# Verified model of the alerting system core (src/alerting.py)

Shallow embedding of the core triad of the alerting system: audience resolution,
the per-recipient notification state machine, and the reminder scheduler.

Python `datetime` values are modelled by a calendar-day index plus
time-of-day fields (`DateTime` below); comparisons and subtraction go
through `toMicros`, the absolute microsecond timestamp, which agrees with
the comparison Python performs on normalized datetimes. `timedelta` values (the
reminder frequency) are modelled as microsecond counts (`Int`).
Python `set` values are modelled as `List String`, read up to membership
(a Python set has an unspecified iteration order and no duplicates; every
set-level statement proved below is about membership, and `set.update`
becomes `listUnion`, which adds exactly the not-yet-present elements).

Methods that mutate `self` in place are modelled as functions returning
the updated record; `datetime.now()` becomes an explicit `now` argument.
-/

namespace Alerting

/-- Python `Severity` enum. -/
inductive Severity
  | info
  | warning
  | critical
deriving DecidableEq, Repr

/-- Python `DeliveryType` enum. -/
inductive DeliveryType
  | in_app
  | email
  | sms
deriving DecidableEq, Repr

/-- Python `AlertStatus` enum. -/
inductive AlertStatus
  | active
  | expired
  | archived
deriving DecidableEq, Repr

/-- Python `NotificationStatus` enum. -/
inductive NotificationStatus
  | unread
  | read
  | snoozed
deriving DecidableEq, Repr

/-- Model of a Python `datetime`: an absolute calendar-day index plus
time-of-day fields. Python keeps datetimes normalized; `Valid` captures
the field ranges of a normalized value. -/
structure DateTime where
  day : Int
  hour : Nat
  minute : Nat
  second : Nat
  microsecond : Nat
deriving DecidableEq, Repr

/-- Absolute timestamp in microseconds; the Python datetime comparison and
subtraction on normalized values agree with comparison and subtraction
of this quantity. -/
def DateTime.toMicros (t : DateTime) : Int :=
  (((t.day * 24 + (t.hour : Int)) * 60 + (t.minute : Int)) * 60 + (t.second : Int)) * 1000000
    + (t.microsecond : Int)

/-- Field ranges of a normalized Python datetime. -/
def DateTime.Valid (t : DateTime) : Prop :=
  t.hour < 24 ∧ t.minute < 60 ∧ t.second < 60 ∧ t.microsecond < 1000000

instance (t : DateTime) : Decidable t.Valid := by
  unfold DateTime.Valid; infer_instance

/-- Python `t + timedelta(days=n)` on a normalized datetime: the date
moves by `n` days, the time of day is unchanged. -/
def DateTime.addDays (t : DateTime) (n : Int) : DateTime :=
  { t with day := t.day + n }

/-- Python `Team` dataclass; `member_ids` is a set of user ids, read up
to membership. -/
structure Team where
  id : String
  name : String
  member_ids : List String
deriving DecidableEq

/-- The directory interface the core consumes from `UserRepository`:
`get_all_user_ids()` and `get_team(team_id)`. -/
structure UserRepository where
  get_all_user_ids : List String
  get_team : String → Option Team

/-- Python `target_users.update(members)` on sets: add exactly the
elements not already present. -/
def listUnion (acc l : List String) : List String :=
  acc ++ l.filter (fun x => ¬ x ∈ acc)

/-- The three `VisibilityConfig` subclasses, as a sum type. -/
inductive VisibilityConfig
  | organization
  | team (team_ids : List String)
  | user (user_ids : List String)
deriving DecidableEq

/-- `VisibilityConfig.get_target_users`, per subclass:
`OrganizationVisibility` returns every user id known to the repository;
`TeamVisibility` folds over its team ids, adding the member set of each
team the repository knows and skipping unknown ids (`get_team` returning
`None` is falsy); `UserVisibility` returns its id set verbatim. -/
def VisibilityConfig.get_target_users :
    VisibilityConfig → UserRepository → List String
  | .organization, repo => repo.get_all_user_ids
  | .team team_ids, repo =>
      team_ids.foldl
        (fun acc tid =>
          match repo.get_team tid with
          | some t => listUnion acc t.member_ids
          | none => acc) []
  | .user user_ids, _ => user_ids

/-- Python `Alert` dataclass. `reminder_frequency` is a `timedelta`,
modelled in microseconds (default `timedelta(hours=2)`). -/
structure Alert where
  id : String
  title : String
  message : String
  severity : Severity
  delivery_type : DeliveryType
  created_by : String
  visibility_config : VisibilityConfig
  start_time : DateTime
  expiry_time : Option DateTime
  reminder_frequency : Int := 7200000000
  status : AlertStatus := .active
  reminders_enabled : Bool := true
deriving DecidableEq

/-- `Alert.is_active`: status must be `ACTIVE`, `now` must not precede
`start_time`, and when an expiry is set `now` must not exceed it.
(`datetime` objects are always truthy in Python, so the guard
`self.expiry_time and now > self.expiry_time` tests exactly
"expiry is set and now > expiry".) -/
def Alert.is_active (a : Alert) (now : DateTime) : Bool :=
  if a.status ≠ AlertStatus.active then false
  else if now.toMicros < a.start_time.toMicros then false
  else
    match a.expiry_time with
    | some e => if now.toMicros > e.toMicros then false else true
    | none => true

/-- Python `UserAlertState` dataclass. -/
structure UserAlertState where
  user_id : String
  alert_id : String
  status : NotificationStatus
  last_reminder_sent : Option DateTime := none
  snoozed_until : Option DateTime := none
  read_at : Option DateTime := none
deriving DecidableEq, Repr

/-- `UserAlertState.should_receive_reminder`. The Python method mutates
`self` (the lazy snooze-expiry transition), so the model returns the
eligibility Boolean together with the state as the call leaves it.
Control flow mirrors the source: a snoozed state with `snoozed_until`
set and strictly passed transitions to unread with `snoozed_until`
cleared and falls through; a snoozed state otherwise (not yet expired,
or `snoozed_until` unset, which is falsy in Python) returns `False`
unchanged; a read state returns `False`; an unset `last_reminder_sent`
returns `True`; otherwise eligibility is
`now - last_reminder_sent >= alert.reminder_frequency`. -/
def UserAlertState.should_receive_reminder (s : UserAlertState) (now : DateTime)
    (alert : Alert) : Bool × UserAlertState :=
  let step1 : Option UserAlertState :=
    if s.status = NotificationStatus.snoozed then
      match s.snoozed_until with
      | some u =>
          if now.toMicros > u.toMicros then
            some { s with status := NotificationStatus.unread, snoozed_until := none }
          else none
      | none => none
    else some s
  match step1 with
  | none => (false, s)
  | some s1 =>
      if s1.status = NotificationStatus.read then (false, s1)
      else
        match s1.last_reminder_sent with
        | none => (true, s1)
        | some last =>
            (decide (now.toMicros - last.toMicros ≥ alert.reminder_frequency), s1)

/-- `UserAlertState.mark_read`: unconditionally sets status to `READ`
and `read_at` to now. -/
def UserAlertState.mark_read (s : UserAlertState) (now : DateTime) : UserAlertState :=
  { s with status := NotificationStatus.read, read_at := some now }

/-- `UserAlertState.snooze_until_tomorrow`:
`tomorrow = now + timedelta(days=1)` and then
`tomorrow.replace(hour=0, minute=0, second=0)` — the `microsecond`
field is not replaced, so it is inherited from `now`. Status is
unconditionally set to `SNOOZED`. -/
def UserAlertState.snooze_until_tomorrow (s : UserAlertState) (now : DateTime) :
    UserAlertState :=
  let tomorrow := now.addDays 1
  { s with
      snoozed_until := some { tomorrow with hour := 0, minute := 0, second := 0 },
      status := NotificationStatus.snoozed }

/-- The nested per-user, per-alert dictionary of `UserAlertStateManager`,
as a map keyed by (user id, alert id). -/
def StateMap : Type := String → String → Option UserAlertState

/-- The map holding no records (a fresh `UserAlertStateManager`). -/
def StateMap.empty : StateMap := fun _ _ => none

/-- `UserAlertStateManager.get_state`: return the stored record when one
exists; otherwise create, store and return a fresh record with status
`UNREAD` (the optional fields take their dataclass defaults, all
unset). Returns the record together with the map after the call. -/
def UserAlertStateManager.get_state (m : StateMap) (user_id alert_id : String) :
    UserAlertState × StateMap :=
  match m user_id alert_id with
  | some s => (s, m)
  | none =>
      let s : UserAlertState :=
        { user_id := user_id, alert_id := alert_id, status := NotificationStatus.unread }
      (s, fun u a => if u = user_id ∧ a = alert_id then some s else m u a)

/-- `UserAlertStateManager.update_state`: store the record under its own
(user id, alert id) key. -/
def UserAlertStateManager.update_state (m : StateMap) (s : UserAlertState) : StateMap :=
  fun u a => if u = s.user_id ∧ a = s.alert_id then some s else m u a

/-- The per-recipient body of `ReminderScheduler.process_reminders`:
fetch-or-create the state, evaluate `should_receive_reminder` (whose
in-place snooze-expiry mutation is visible in the store, because
`get_state` returns the very object held in the dictionary), and when
eligible attempt delivery; on success set `last_reminder_sent := now`
and `update_state`. The accumulator carries the state map and the list
of (alert id, user id) pairs on which the delivery capability was
invoked. `deliver` models the outcome of `NotificationDelivery.deliver`. -/
def ReminderScheduler.processUser (deliver : Alert → String → Bool) (now : DateTime)
    (alert : Alert) (acc : StateMap × List (String × String)) (user_id : String) :
    StateMap × List (String × String) :=
  let m := acc.1
  let log := acc.2
  let fetched := UserAlertStateManager.get_state m user_id alert.id
  let s0 := fetched.1
  let m1 := fetched.2
  let checked := s0.should_receive_reminder now alert
  let elig := checked.1
  let s1 := checked.2
  let m2 := UserAlertStateManager.update_state m1 s1
  if elig then
    if deliver alert user_id then
      let s2 := { s1 with last_reminder_sent := some now }
      (UserAlertStateManager.update_state m2 s2, log ++ [(alert.id, user_id)])
    else (m2, log ++ [(alert.id, user_id)])
  else (m2, log)

/-- The per-alert body of `ReminderScheduler.process_reminders`: skip
alerts with reminders disabled, otherwise resolve the audience and
process every targeted recipient. -/
def ReminderScheduler.processAlert (deliver : Alert → String → Bool) (now : DateTime)
    (repo : UserRepository) (acc : StateMap × List (String × String)) (alert : Alert) :
    StateMap × List (String × String) :=
  if alert.reminders_enabled then
    (alert.visibility_config.get_target_users repo).foldl
      (ReminderScheduler.processUser deliver now alert) acc
  else acc

/-- `ReminderScheduler.process_reminders`: one sweep. `get_active_alerts`
filters the registry alerts by `is_active`; the surviving alerts are
processed in order. Returns the state map after the sweep and the list
of delivery attempts made. -/
def ReminderScheduler.process_reminders (deliver : Alert → String → Bool) (now : DateTime)
    (repo : UserRepository) (alerts : List Alert) (m : StateMap) :
    StateMap × List (String × String) :=
  (alerts.filter (fun a => a.is_active now)).foldl
    (ReminderScheduler.processAlert deliver now repo) (m, [])

/-! ## Concrete fixtures for witnesses and counterexamples -/

/-- A directory that knows no users and no teams. -/
def repoEmpty : UserRepository :=
  { get_all_user_ids := [], get_team := fun _ => none }

/-- A directory with one team of two members, for concrete audience checks. -/
def repoTeams : UserRepository :=
  { get_all_user_ids := ["u1", "u2", "u3"],
    get_team := fun tid =>
      if tid = "team1" then
        some { id := "team1", name := "Engineering", member_ids := ["u1", "u2"] }
      else none }

/-- A live alert targeting the single recipient u1, with the default
two-hour reminder frequency. -/
def alertLive : Alert :=
  { id := "a1", title := "t", message := "m", severity := .info,
    delivery_type := .in_app, created_by := "admin",
    visibility_config := .user ["u1"],
    start_time := ⟨0, 0, 0, 0, 0⟩, expiry_time := none }

/-- An alert whose status is `EXPIRED`; never live. -/
def alertDead : Alert :=
  { alertLive with id := "a2", status := AlertStatus.expired }

/-- A record snoozed until the start of day 1. -/
def stateSnoozedDay1 : UserAlertState :=
  { user_id := "u1", alert_id := "a1", status := NotificationStatus.snoozed,
    snoozed_until := some ⟨1, 0, 0, 0, 0⟩ }

/-- A store holding exactly the snoozed record for (u1, a1). -/
def mapSnoozedDay1 : StateMap :=
  fun u a => if u = "u1" ∧ a = "a1" then some stateSnoozedDay1 else none

/-- An invariant-violating record: snoozed with `snoozed_until` unset. -/
def stateSnoozedNoUntil : UserAlertState :=
  { user_id := "u1", alert_id := "a1", status := NotificationStatus.snoozed }

/-- snoozed-until is set iff the status is snoozed (the state-machine
invariant claimed by the specification). -/
def SnoozeInvariant (s : UserAlertState) : Prop :=
  s.snoozed_until.isSome ↔ s.status = NotificationStatus.snoozed

/-- The forward direction only: a snoozed status has snoozed-until set. -/
def SnoozeStatusHasUntil (s : UserAlertState) : Prop :=
  s.status = NotificationStatus.snoozed → s.snoozed_until.isSome

instance (s : UserAlertState) : Decidable (SnoozeInvariant s) := by
  unfold SnoozeInvariant; infer_instance

instance (s : UserAlertState) : Decidable (SnoozeStatusHasUntil s) := by
  unfold SnoozeStatusHasUntil; infer_instance

/-! ## Theorems -/

/-- Membership in `listUnion` is membership in either list. -/
theorem mem_listUnion (acc l : List String) (x : String) :
    x ∈ listUnion acc l ↔ x ∈ acc ∨ x ∈ l := by
  unfold listUnion
  simp only [List.mem_append, List.mem_filter]
  constructor
  · rintro (h | ⟨h, _⟩)
    · exact Or.inl h
    · exact Or.inr h
  · rintro (h | h)
    · exact Or.inl h
    · by_cases hacc : x ∈ acc
      · exact Or.inl hacc
      · exact Or.inr ⟨h, by simpa using hacc⟩

/-- Membership in the fold `TeamVisibility.get_target_users` runs over
its team-id list: an element is collected iff it was already in the
accumulator or belongs to the member set of some listed team the
repository knows. -/
theorem mem_team_fold (repo : UserRepository) (x : String) :
    ∀ (l : List String) (acc : List String),
      x ∈ l.foldl (fun acc tid =>
          match repo.get_team tid with
          | some t => listUnion acc t.member_ids
          | none => acc) acc ↔
        x ∈ acc ∨ ∃ tid ∈ l, ∃ t, repo.get_team tid = some t ∧ x ∈ t.member_ids := by
  intro l
  induction l with
  | nil => simp
  | cons hd tl ih =>
      intro acc
      simp only [List.foldl_cons]
      rw [ih]
      cases h : repo.get_team hd with
      | none =>
          simp only [h, List.mem_cons]
          constructor
          · rintro (hacc | ⟨tid, htid, t, ht, hx⟩)
            · exact Or.inl hacc
            · exact Or.inr ⟨tid, Or.inr htid, t, ht, hx⟩
          · rintro (hacc | ⟨tid, htid | htid, t, ht, hx⟩)
            · exact Or.inl hacc
            · rw [htid] at ht; rw [h] at ht; cases ht
            · exact Or.inr ⟨tid, htid, t, ht, hx⟩
      | some tm =>
          simp only [h, mem_listUnion, List.mem_cons]
          constructor
          · rintro (⟨hacc | hmem⟩ | ⟨tid, htid, t, ht, hx⟩)
            · exact Or.inl hacc
            · exact Or.inr ⟨hd, Or.inl rfl, tm, h, hmem⟩
            · exact Or.inr ⟨tid, Or.inr htid, t, ht, hx⟩
          · rintro (hacc | ⟨tid, htid | htid, t, ht, hx⟩)
            · exact Or.inl (Or.inl hacc)
            · rw [htid] at ht; rw [h] at ht
              cases ht
              exact Or.inl (Or.inr hx)
            · exact Or.inr ⟨tid, htid, t, ht, hx⟩

/-- C8: for a team-scoped visibility rule naming team ids `team_ids`,
audience resolution returns exactly the union of the member sets of the
teams the Directory knows among them; a team id unknown to the
Directory contributes nothing, and resolution is total (no error). -/
theorem team_visibility_resolves_union (repo : UserRepository)
    (team_ids : List String) (x : String) :
    x ∈ (VisibilityConfig.team team_ids).get_target_users repo ↔
      ∃ tid ∈ team_ids, ∃ t, repo.get_team tid = some t ∧ x ∈ t.member_ids := by
  unfold VisibilityConfig.get_target_users
  rw [mem_team_fold]
  simp

/-- C10: `get_state` is get-or-create and non-destructive. When no
record exists for the pair, it returns a fresh record with status
unread and all optional fields unset, stores it under the pair, and
touches no other key; when a record exists, it returns that record
with the store unchanged. -/
theorem get_state_idempotent (m : StateMap) (user_id alert_id : String) :
    (m user_id alert_id = none →
      (UserAlertStateManager.get_state m user_id alert_id).1 =
        { user_id := user_id, alert_id := alert_id,
          status := NotificationStatus.unread,
          last_reminder_sent := none, snoozed_until := none, read_at := none }
      ∧ (UserAlertStateManager.get_state m user_id alert_id).2 user_id alert_id =
          some (UserAlertStateManager.get_state m user_id alert_id).1
      ∧ ∀ u a, ¬(u = user_id ∧ a = alert_id) →
          (UserAlertStateManager.get_state m user_id alert_id).2 u a = m u a)
    ∧ ∀ s, m user_id alert_id = some s →
        UserAlertStateManager.get_state m user_id alert_id = (s, m) := by
  constructor
  · intro hnone
    unfold UserAlertStateManager.get_state
    rw [hnone]
    refine ⟨rfl, by simp, ?_⟩
    intro u a hne
    simp [hne]
  · intro s hsome
    unfold UserAlertStateManager.get_state
    rw [hsome]

/-- C10 witness: on the empty store, the first call for (u1, a1)
creates the unread record and stores it; a second call returns it with
the store unchanged. -/
theorem get_state_idempotent_witness :
    (StateMap.empty "u1" "a1" = none ∧
      (UserAlertStateManager.get_state StateMap.empty "u1" "a1").1 =
        { user_id := "u1", alert_id := "a1",
          status := NotificationStatus.unread,
          last_reminder_sent := none, snoozed_until := none, read_at := none })
    ∧ (mapSnoozedDay1 "u1" "a1" = some stateSnoozedDay1 ∧
        UserAlertStateManager.get_state mapSnoozedDay1 "u1" "a1" =
          (stateSnoozedDay1, mapSnoozedDay1)) :=
  ⟨⟨rfl, ((get_state_idempotent StateMap.empty "u1" "a1").1 rfl).1⟩,
   ⟨rfl, (get_state_idempotent mapSnoozedDay1 "u1" "a1").2 stateSnoozedDay1 rfl⟩⟩

/-- C4: the throttling gate. For a non-snoozed, non-read (i.e. unread)
state, `should_receive_reminder` returns true when
`last_reminder_sent` is unset, and otherwise true iff
`now - last_reminder_sent >= alert.reminder_frequency`; consequently,
for a positive reminder frequency, it is false immediately after a
successful delivery has set `last_reminder_sent = now`. -/
theorem throttling_gate_correct (s : UserAlertState) (alert : Alert) (now : DateTime)
    (hs : s.status = NotificationStatus.unread) :
    ((s.should_receive_reminder now alert).1 =
      match s.last_reminder_sent with
      | none => true
      | some last => decide (now.toMicros - last.toMicros ≥ alert.reminder_frequency))
    ∧ (0 < alert.reminder_frequency →
      (({ s with last_reminder_sent := some now } :
          UserAlertState).should_receive_reminder now alert).1 = false) := by
  constructor
  · unfold UserAlertState.should_receive_reminder
    cases h : s.last_reminder_sent <;> simp [hs, h]
  · intro hfreq
    unfold UserAlertState.should_receive_reminder
    simp [hs]
    omega

/-- C4 witness: a fresh unread record is eligible; after recording a
delivery at the same instant against the default two-hour frequency it
is not. -/
theorem throttling_gate_correct_witness :
    (UserAlertStateManager.get_state StateMap.empty "u1" "a1").1.status =
      NotificationStatus.unread
    ∧ (((UserAlertStateManager.get_state StateMap.empty "u1" "a1").1.should_receive_reminder
          ⟨0, 12, 0, 0, 0⟩ alertLive).1 =
        match (UserAlertStateManager.get_state StateMap.empty "u1" "a1").1.last_reminder_sent with
        | none => true
        | some last =>
            decide ((⟨0, 12, 0, 0, 0⟩ : DateTime).toMicros - last.toMicros ≥
              alertLive.reminder_frequency))
    ∧ (0 < alertLive.reminder_frequency →
        (({ (UserAlertStateManager.get_state StateMap.empty "u1" "a1").1 with
              last_reminder_sent := some ⟨0, 12, 0, 0, 0⟩ } :
            UserAlertState).should_receive_reminder ⟨0, 12, 0, 0, 0⟩ alertLive).1 = false) :=
  ⟨by decide,
    throttling_gate_correct (UserAlertStateManager.get_state StateMap.empty "u1" "a1").1
      alertLive ⟨0, 12, 0, 0, 0⟩ (by decide)⟩

/-- C3: lazy snooze expiry. On a snoozed state with `snoozed_until` set:
when `now` is strictly past `snoozed_until`, the check first transitions
the record to unread with `snoozed_until` cleared and then evaluates
eligibility on that transitioned record within the same call (its whole
result, Boolean and final state, coincides with a call on the already
transitioned record, so a just-expired snooze can be eligible in the
same sweep); when `now` has not passed `snoozed_until`, the check
returns not eligible and leaves the record snoozed and unchanged. -/
theorem lazy_snooze_expiry_correct (s : UserAlertState) (alert : Alert)
    (now u : DateTime) (hs : s.status = NotificationStatus.snoozed)
    (hu : s.snoozed_until = some u) :
    (now.toMicros > u.toMicros →
      s.should_receive_reminder now alert =
        ({ s with status := NotificationStatus.unread, snoozed_until := none } :
          UserAlertState).should_receive_reminder now alert
      ∧ (s.should_receive_reminder now alert).2 =
          { s with status := NotificationStatus.unread, snoozed_until := none })
    ∧ (¬ now.toMicros > u.toMicros →
      s.should_receive_reminder now alert = (false, s)) := by
  constructor
  · intro hlt
    constructor
    · unfold UserAlertState.should_receive_reminder
      simp [hs, hu, hlt]
    · unfold UserAlertState.should_receive_reminder
      cases h : s.last_reminder_sent <;> simp [hs, hu, hlt, h]
  · intro hge
    unfold UserAlertState.should_receive_reminder
    simp [hs, hu, hge]

/-- C3 witness: at day 2 the day-1 snooze has expired, so the check on
the snoozed record equals the check on the unsnoozed record and
transitions the state; at noon of day 0 it has not, so the check
returns false and leaves the record unchanged. -/
theorem lazy_snooze_expiry_correct_witness :
    stateSnoozedDay1.status = NotificationStatus.snoozed
    ∧ stateSnoozedDay1.snoozed_until = some ⟨1, 0, 0, 0, 0⟩
    ∧ ((⟨2, 0, 0, 0, 0⟩ : DateTime).toMicros > (⟨1, 0, 0, 0, 0⟩ : DateTime).toMicros →
        stateSnoozedDay1.should_receive_reminder ⟨2, 0, 0, 0, 0⟩ alertLive =
          ({ stateSnoozedDay1 with
              status := NotificationStatus.unread,
              snoozed_until := none } : UserAlertState).should_receive_reminder
            ⟨2, 0, 0, 0, 0⟩ alertLive
        ∧ (stateSnoozedDay1.should_receive_reminder ⟨2, 0, 0, 0, 0⟩ alertLive).2 =
            { stateSnoozedDay1 with
              status := NotificationStatus.unread,
              snoozed_until := none })
    ∧ (¬ (⟨0, 12, 0, 0, 0⟩ : DateTime).toMicros > (⟨1, 0, 0, 0, 0⟩ : DateTime).toMicros →
        stateSnoozedDay1.should_receive_reminder ⟨0, 12, 0, 0, 0⟩ alertLive =
          (false, stateSnoozedDay1)) :=
  ⟨by decide, by decide,
    (lazy_snooze_expiry_correct stateSnoozedDay1 alertLive ⟨2, 0, 0, 0, 0⟩
      ⟨1, 0, 0, 0, 0⟩ (by decide) (by decide)).1,
    (lazy_snooze_expiry_correct stateSnoozedDay1 alertLive ⟨0, 12, 0, 0, 0⟩
      ⟨1, 0, 0, 0, 0⟩ (by decide) (by decide)).2⟩

/-- C9 counterexample: evaluating eligibility on the invariant-violating
record (status snoozed, `snoozed_until` unset) does not fail: the
truthiness guard routes it to the not-expired branch and the call
returns the ordinary value (not eligible, state unchanged), so the
violation is silently tolerated rather than failing loudly. -/
theorem snoozed_without_until_tolerated_concrete :
    stateSnoozedNoUntil.status = NotificationStatus.snoozed
    ∧ stateSnoozedNoUntil.snoozed_until = none
    ∧ stateSnoozedNoUntil.should_receive_reminder ⟨0, 12, 0, 0, 0⟩ alertLive =
        (false, stateSnoozedNoUntil) := by
  refine ⟨by decide, by decide, ?_⟩
  decide

/-- C9 amended: a snoozed state with `snoozed_until` unset is silently
tolerated by the eligibility check: for every such state the check
returns not eligible with the state unchanged, and no assertion or
exception path exists in the function. -/
theorem snoozed_without_until_silently_false (s : UserAlertState) (alert : Alert)
    (now : DateTime) (hs : s.status = NotificationStatus.snoozed)
    (hu : s.snoozed_until = none) :
    s.should_receive_reminder now alert = (false, s) := by
  unfold UserAlertState.should_receive_reminder
  simp [hs, hu]

/-- C9 amended witness: the concrete violating record at a concrete
instant evaluates to (false, unchanged). -/
theorem snoozed_without_until_silently_false_witness :
    stateSnoozedNoUntil.status = NotificationStatus.snoozed
    ∧ stateSnoozedNoUntil.snoozed_until = none
    ∧ stateSnoozedNoUntil.should_receive_reminder ⟨3, 7, 30, 0, 0⟩ alertLive =
        (false, stateSnoozedNoUntil) :=
  ⟨by decide, by decide,
    snoozed_without_until_silently_false stateSnoozedNoUntil alertLive
      ⟨3, 7, 30, 0, 0⟩ (by decide) (by decide)⟩

/-- C1 counterexample: read is not sticky against snooze. Mark the
fresh (u1, a1) record read at noon of day 0, then snooze it at 13:00;
`snooze_until_tomorrow` unconditionally sets the status to snoozed, so
the status has moved away from read, contradicting the claim. -/
theorem snooze_moves_status_off_read_concrete :
    (((UserAlertStateManager.get_state StateMap.empty "u1" "a1").1.mark_read
        ⟨0, 12, 0, 0, 0⟩).status = NotificationStatus.read)
    ∧ ((((UserAlertStateManager.get_state StateMap.empty "u1" "a1").1.mark_read
        ⟨0, 12, 0, 0, 0⟩).snooze_until_tomorrow ⟨0, 13, 0, 0, 0⟩).status =
          NotificationStatus.snoozed)
    ∧ NotificationStatus.snoozed ≠ NotificationStatus.read := by
  refine ⟨by decide, by decide, by decide⟩

/-- C1 amended: read is sticky only under mark-read. After a mark-read,
further mark-read calls keep the status read, and the eligibility check
returns false (with the state unchanged) as long as the status is read;
but a subsequent snooze unconditionally sets the status to snoozed
(re-opening the pair), and once that snooze has expired the eligibility
check can evaluate true again (here: whenever no reminder has yet been
recorded for the pair). -/
theorem read_sticky_only_under_mark_read (s : UserAlertState) (alert : Alert)
    (t1 t2 now : DateTime) :
    ((s.mark_read t1).mark_read t2).status = NotificationStatus.read
    ∧ (s.mark_read t1).should_receive_reminder now alert = (false, s.mark_read t1)
    ∧ ((s.mark_read t1).snooze_until_tomorrow t2).status = NotificationStatus.snoozed
    ∧ (s.last_reminder_sent = none →
        ∀ now2 : DateTime,
          now2.toMicros > (DateTime.mk (t2.day + 1) 0 0 0 t2.microsecond).toMicros →
          (((s.mark_read t1).snooze_until_tomorrow t2).should_receive_reminder
              now2 alert).1 = true) := by
  refine ⟨rfl, ?_, rfl, ?_⟩
  · unfold UserAlertState.should_receive_reminder UserAlertState.mark_read
    simp
  · intro hlast now2 h2
    unfold UserAlertState.should_receive_reminder UserAlertState.snooze_until_tomorrow
      UserAlertState.mark_read DateTime.addDays
    simp [hlast, h2]

/-- C1 amended witness: concrete run on the fresh (u1, a1) record:
mark read at noon day 0, and the snoozed-after-read record is eligible
again at noon of day 2, past the day-1 snooze boundary. -/
theorem read_sticky_only_under_mark_read_witness :
    ((((UserAlertStateManager.get_state StateMap.empty "u1" "a1").1.mark_read
        ⟨0, 12, 0, 0, 0⟩).mark_read ⟨0, 13, 0, 0, 0⟩).status = NotificationStatus.read)
    ∧ ((UserAlertStateManager.get_state StateMap.empty "u1" "a1").1.mark_read
        ⟨0, 12, 0, 0, 0⟩).should_receive_reminder ⟨0, 14, 0, 0, 0⟩ alertLive =
        (false, (UserAlertStateManager.get_state StateMap.empty "u1" "a1").1.mark_read
          ⟨0, 12, 0, 0, 0⟩)
    ∧ ((((UserAlertStateManager.get_state StateMap.empty "u1" "a1").1.mark_read
        ⟨0, 12, 0, 0, 0⟩).snooze_until_tomorrow ⟨0, 13, 0, 0, 0⟩).status =
          NotificationStatus.snoozed)
    ∧ ((UserAlertStateManager.get_state StateMap.empty "u1" "a1").1.last_reminder_sent = none
        ∧ (⟨2, 12, 0, 0, 0⟩ : DateTime).toMicros >
            (DateTime.mk (0 + 1) 0 0 0 0).toMicros
        ∧ ((((UserAlertStateManager.get_state StateMap.empty "u1" "a1").1.mark_read
            ⟨0, 12, 0, 0, 0⟩).snooze_until_tomorrow
              ⟨0, 13, 0, 0, 0⟩).should_receive_reminder ⟨2, 12, 0, 0, 0⟩ alertLive).1 =
            true) := by
  have h := read_sticky_only_under_mark_read
    (UserAlertStateManager.get_state StateMap.empty "u1" "a1").1 alertLive
    ⟨0, 12, 0, 0, 0⟩ ⟨0, 13, 0, 0, 0⟩ ⟨0, 14, 0, 0, 0⟩
  exact ⟨h.1, h.2.1, h.2.2.1,
    by decide, by decide,
    h.2.2.2 (by decide) ⟨2, 12, 0, 0, 0⟩ (by decide)⟩

/-- C2 counterexample: mark-read does not preserve the claimed
iff-invariant. The snoozed (u1, a1) record satisfies it (snoozed-until
set, status snoozed); after mark-read the status is read while
snoozed-until is still set, so snoozed-until is set without the status
being snoozed. -/
theorem mark_read_on_snoozed_breaks_invariant :
    SnoozeInvariant stateSnoozedDay1
    ∧ (stateSnoozedDay1.mark_read ⟨0, 12, 0, 0, 0⟩).status = NotificationStatus.read
    ∧ (stateSnoozedDay1.mark_read ⟨0, 12, 0, 0, 0⟩).snoozed_until = some ⟨1, 0, 0, 0, 0⟩
    ∧ ¬ SnoozeInvariant (stateSnoozedDay1.mark_read ⟨0, 12, 0, 0, 0⟩) := by
  refine ⟨by decide, by decide, by decide, by decide⟩

/-- C2 amended: the snooze action, the lazy snooze-expiry inside the
eligibility check, recording a successful delivery, and creation of a
fresh record all preserve (or establish) the iff-invariant
"snoozed-until is set iff status = snoozed"; mark-read preserves only
its forward direction (a snoozed status has snoozed-until set — after
mark-read the status is read, so the implication holds trivially), and
on a snoozed record it leaves snoozed-until set while moving the status
to read, breaking the iff. -/
theorem snooze_invariant_amended :
    (∀ (s : UserAlertState) (now : DateTime),
      SnoozeInvariant (s.snooze_until_tomorrow now))
    ∧ (∀ (s : UserAlertState) (alert : Alert) (now : DateTime), SnoozeInvariant s →
        SnoozeInvariant (s.should_receive_reminder now alert).2)
    ∧ (∀ (s : UserAlertState) (now : DateTime), SnoozeInvariant s →
        SnoozeInvariant { s with last_reminder_sent := some now })
    ∧ (∀ (m : StateMap) (user_id alert_id : String), m user_id alert_id = none →
        SnoozeInvariant (UserAlertStateManager.get_state m user_id alert_id).1)
    ∧ (∀ (s : UserAlertState) (now : DateTime), SnoozeStatusHasUntil (s.mark_read now)) := by
  refine ⟨?_, ?_, ?_, ?_, ?_⟩
  · intro s now
    unfold SnoozeInvariant UserAlertState.snooze_until_tomorrow
    simp
  · intro s alert now hinv
    unfold SnoozeInvariant at hinv ⊢
    unfold UserAlertState.should_receive_reminder
    by_cases hs : s.status = NotificationStatus.snoozed
    · cases hu : s.snoozed_until with
      | none => simp [hs, hu] at hinv
      | some u =>
          by_cases hlt : now.toMicros > u.toMicros
          · cases h : s.last_reminder_sent <;> simp [hs, hu, hlt, h]
          · simp [hs, hu, hlt]
    · have hnone : s.snoozed_until = none := by
        cases hu : s.snoozed_until with
        | none => rfl
        | some u => exact absurd (hinv.mp (by simp [hu])) hs
      cases h : s.last_reminder_sent <;>
        by_cases hr : s.status = NotificationStatus.read <;>
          simp [hs, hr, h, hnone]
  · intro s now hinv
    unfold SnoozeInvariant at hinv ⊢
    simpa using hinv
  · intro m user_id alert_id hnone
    unfold UserAlertStateManager.get_state
    rw [hnone]
    unfold SnoozeInvariant
    simp
  · intro s now
    unfold SnoozeStatusHasUntil UserAlertState.mark_read
    simp

/-- C2 amended witness: concrete checks — snoozing the fresh record
establishes the invariant, the eligibility check at day 2 preserves it
on the snoozed record, recording a delivery preserves it, the freshly
created record satisfies it, and mark-read on the snoozed record keeps
the forward direction. -/
theorem snooze_invariant_amended_witness :
    SnoozeInvariant
      ((UserAlertStateManager.get_state StateMap.empty "u1" "a1").1.snooze_until_tomorrow
        ⟨0, 12, 0, 0, 0⟩)
    ∧ (SnoozeInvariant stateSnoozedDay1 ∧
        SnoozeInvariant
          (stateSnoozedDay1.should_receive_reminder ⟨2, 0, 0, 0, 0⟩ alertLive).2)
    ∧ (SnoozeInvariant stateSnoozedDay1 ∧
        SnoozeInvariant { stateSnoozedDay1 with last_reminder_sent := some ⟨2, 0, 0, 0, 0⟩ })
    ∧ (StateMap.empty "u1" "a1" = none ∧
        SnoozeInvariant (UserAlertStateManager.get_state StateMap.empty "u1" "a1").1)
    ∧ SnoozeStatusHasUntil (stateSnoozedDay1.mark_read ⟨0, 12, 0, 0, 0⟩) :=
  ⟨snooze_invariant_amended.1 (UserAlertStateManager.get_state StateMap.empty "u1" "a1").1
      ⟨0, 12, 0, 0, 0⟩,
    ⟨by decide, snooze_invariant_amended.2.1 stateSnoozedDay1 alertLive ⟨2, 0, 0, 0, 0⟩
      (by decide)⟩,
    ⟨by decide, snooze_invariant_amended.2.2.1 stateSnoozedDay1 ⟨2, 0, 0, 0, 0⟩ (by decide)⟩,
    ⟨rfl, snooze_invariant_amended.2.2.2.1 StateMap.empty "u1" "a1" rfl⟩,
    snooze_invariant_amended.2.2.2.2 stateSnoozedDay1 ⟨0, 12, 0, 0, 0⟩⟩

/-- C7: `snooze_until_tomorrow` is intended to snooze until the start of
the next calendar day, but `tomorrow.replace(hour=0, minute=0,
second=0)` leaves the `microsecond` field of `now` in place. At the
failing input now = day 738672, 13:45:10.500000, the stored
snoozed-until is day 738673, 00:00:00.500000 — hour, minute and second
are zero but the sub-second component is 500000, not zero, so the
stored instant is not the local midnight the claim (and the function
name) promise. -/
theorem snooze_keeps_microseconds :
    ((stateSnoozedNoUntil.snooze_until_tomorrow ⟨738672, 13, 45, 10, 500000⟩).snoozed_until =
      some ⟨738673, 0, 0, 0, 500000⟩)
    ∧ (500000 : Nat) ≠ 0
    ∧ ∀ s : UserAlertState,
        (s.snooze_until_tomorrow ⟨738672, 13, 45, 10, 500000⟩).snoozed_until =
          some ⟨738673, 0, 0, 0, 500000⟩
        ∧ (s.snooze_until_tomorrow ⟨738672, 13, 45, 10, 500000⟩).status =
            NotificationStatus.snoozed := by
  exact ⟨by decide, by decide, fun s => ⟨rfl, rfl⟩⟩

/-- An alert whose reminder-frequency gate is disabled; never processed. -/
theorem processAlert_disabled (deliver : Alert → String → Bool) (now : DateTime)
    (repo : UserRepository) (acc : StateMap × List (String × String)) (a : Alert)
    (h : a.reminders_enabled = false) :
    ReminderScheduler.processAlert deliver now repo acc a = acc := by
  unfold ReminderScheduler.processAlert
  rw [h]
  rfl

/-- Folding the per-alert body over the `is_active` survivors equals
folding it over the alerts that are both live and reminders-enabled:
a surviving alert with reminders disabled contributes nothing. -/
theorem foldl_processAlert_filter_enabled (deliver : Alert → String → Bool)
    (now : DateTime) (repo : UserRepository) :
    ∀ (l : List Alert) (acc : StateMap × List (String × String)),
      (l.filter (fun a => a.is_active now)).foldl
          (ReminderScheduler.processAlert deliver now repo) acc =
        (l.filter (fun a => a.is_active now && a.reminders_enabled)).foldl
          (ReminderScheduler.processAlert deliver now repo) acc := by
  intro l
  induction l with
  | nil => intro acc; rfl
  | cons hd tl ih =>
      intro acc
      cases hact : hd.is_active now with
      | false => simp only [List.filter_cons, hact, Bool.false_and]; exact ih acc
      | true =>
          cases hen : hd.reminders_enabled with
          | false =>
              have h1 : List.filter (fun a => a.is_active now) (hd :: tl) =
                  hd :: List.filter (fun a => a.is_active now) tl := by
                simp [List.filter_cons, hact]
              have h2 : List.filter (fun a => a.is_active now && a.reminders_enabled)
                  (hd :: tl) =
                  List.filter (fun a => a.is_active now && a.reminders_enabled) tl := by
                simp [List.filter_cons, hact, hen]
              rw [h1, h2, List.foldl_cons,
                processAlert_disabled deliver now repo acc hd hen]
              exact ih acc
          | true =>
              have h1 : List.filter (fun a => a.is_active now) (hd :: tl) =
                  hd :: List.filter (fun a => a.is_active now) tl := by
                simp [List.filter_cons, hact]
              have h2 : List.filter (fun a => a.is_active now && a.reminders_enabled)
                  (hd :: tl) =
                  hd :: List.filter (fun a => a.is_active now && a.reminders_enabled) tl := by
                simp [List.filter_cons, hact, hen]
              rw [h1, h2, List.foldl_cons, List.foldl_cons]
              exact ih _

/-- C5: liveness gating. A sweep touches precisely the live,
reminders-enabled alerts: (1) `is_active` is false for every alert whose
status is not active, or whose window excludes `now` (now before start,
or an expiry set and strictly exceeded); (2) a sweep equals the sweep
restricted to the alerts that are live with reminders enabled, so a
skipped alert contributes no delivery attempt and no state-store
change; (3) in particular, a sweep in which every alert is either not
live or has reminders disabled leaves the store untouched and attempts
no delivery. -/
theorem dead_alerts_skipped :
    (∀ (a : Alert) (now : DateTime),
      (a.status ≠ AlertStatus.active ∨ now.toMicros < a.start_time.toMicros ∨
        ∃ e, a.expiry_time = some e ∧ now.toMicros > e.toMicros) →
      a.is_active now = false)
    ∧ (∀ (deliver : Alert → String → Bool) (now : DateTime) (repo : UserRepository)
        (alerts : List Alert) (m : StateMap),
        ReminderScheduler.process_reminders deliver now repo alerts m =
          (alerts.filter (fun a => a.is_active now && a.reminders_enabled)).foldl
            (ReminderScheduler.processAlert deliver now repo) (m, []))
    ∧ (∀ (deliver : Alert → String → Bool) (now : DateTime) (repo : UserRepository)
        (alerts : List Alert) (m : StateMap),
        (∀ a ∈ alerts, a.is_active now = false ∨ a.reminders_enabled = false) →
        ReminderScheduler.process_reminders deliver now repo alerts m = (m, [])) := by
  have hfilter : ∀ (deliver : Alert → String → Bool) (now : DateTime)
      (repo : UserRepository) (alerts : List Alert) (m : StateMap),
      ReminderScheduler.process_reminders deliver now repo alerts m =
        (alerts.filter (fun a => a.is_active now && a.reminders_enabled)).foldl
          (ReminderScheduler.processAlert deliver now repo) (m, []) := by
    intro deliver now repo alerts m
    unfold ReminderScheduler.process_reminders
    exact foldl_processAlert_filter_enabled deliver now repo alerts (m, [])
  refine ⟨?_, hfilter, ?_⟩
  · intro a now h
    unfold Alert.is_active
    rcases h with h | h | ⟨e, he, hgt⟩
    · simp [h]
    · by_cases hst : a.status = AlertStatus.active
      · simp [hst, h]
      · simp [hst]
    · by_cases hst : a.status = AlertStatus.active
      · by_cases hlt : now.toMicros < a.start_time.toMicros
        · simp [hst, hlt]
        · simp [hst, hlt, he, hgt]
      · simp [hst]
  · intro deliver now repo alerts m hall
    rw [hfilter]
    have hnil : alerts.filter (fun a => a.is_active now && a.reminders_enabled) = [] := by
      rw [List.filter_eq_nil_iff]
      intro a ha
      rcases hall a ha with h | h <;> simp [h]
    rw [hnil]
    rfl

/-- C5 witness: the expired alert is not live at day-0 midnight, and a
sweep over just that alert changes nothing and attempts no delivery. -/
theorem dead_alerts_skipped_witness :
    alertDead.is_active ⟨0, 0, 0, 0, 0⟩ = false
    ∧ (alertDead.status = AlertStatus.expired ∧ AlertStatus.expired ≠ AlertStatus.active)
    ∧ ReminderScheduler.process_reminders (fun _ _ => true) ⟨0, 0, 0, 0, 0⟩ repoEmpty
        [alertDead] StateMap.empty = (StateMap.empty, []) :=
  ⟨dead_alerts_skipped.1 alertDead ⟨0, 0, 0, 0, 0⟩ (Or.inl (by decide)),
    ⟨by decide, by decide⟩,
    dead_alerts_skipped.2.2 (fun _ _ => true) ⟨0, 0, 0, 0, 0⟩ repoEmpty [alertDead]
      StateMap.empty
      (fun a ha => by
        rw [List.mem_singleton] at ha
        exact Or.inl (ha ▸ dead_alerts_skipped.1 alertDead ⟨0, 0, 0, 0, 0⟩
          (Or.inl (by decide))))⟩

/-- The eligibility check either leaves the record unchanged or applies
exactly the snooze-expiry transition; in particular it never touches
`user_id`, `alert_id`, `last_reminder_sent` or `read_at`. -/
theorem should_receive_reminder_state_cases (s : UserAlertState) (now : DateTime)
    (alert : Alert) :
    (s.should_receive_reminder now alert).2 = s ∨
      (s.should_receive_reminder now alert).2 =
        { s with status := NotificationStatus.unread, snoozed_until := none } := by
  unfold UserAlertState.should_receive_reminder
  by_cases hs : s.status = NotificationStatus.snoozed
  · cases hu : s.snoozed_until with
    | none => simp [hs, hu]
    | some u =>
        by_cases hlt : now.toMicros > u.toMicros
        · cases hl : s.last_reminder_sent <;> simp [hs, hu, hlt, hl]
        · simp [hs, hu, hlt]
  · by_cases hr : s.status = NotificationStatus.read
    · simp [hs, hr]
    · cases hl : s.last_reminder_sent <;> simp [hs, hr, hl]

/-- The eligibility check preserves the key fields and the
last-reminder timestamp. -/
theorem should_receive_reminder_preserves_ids (s : UserAlertState) (now : DateTime)
    (alert : Alert) :
    (s.should_receive_reminder now alert).2.user_id = s.user_id
    ∧ (s.should_receive_reminder now alert).2.alert_id = s.alert_id
    ∧ (s.should_receive_reminder now alert).2.last_reminder_sent = s.last_reminder_sent := by
  rcases should_receive_reminder_state_cases s now alert with h | h <;> rw [h] <;>
    exact ⟨rfl, rfl, rfl⟩

/-- `get_state` returns a record whose key fields match the requested
pair, provided every record in the store sits under its own key. -/
theorem get_state_key_fields (m : StateMap) (user_id alert_id : String)
    (hkey : ∀ s, m user_id alert_id = some s → s.user_id = user_id ∧ s.alert_id = alert_id) :
    (UserAlertStateManager.get_state m user_id alert_id).1.user_id = user_id
    ∧ (UserAlertStateManager.get_state m user_id alert_id).1.alert_id = alert_id := by
  unfold UserAlertStateManager.get_state
  cases hm : m user_id alert_id with
  | some s => exact hkey s hm
  | none => exact ⟨rfl, rfl⟩

/-- An eligible pair stays eligible at any later instant as long as its
state is not written: eligibility at `now` of the state the check left
behind holds again at every `now2 ≥ now`. -/
theorem eligible_again_later (s : UserAlertState) (alert : Alert) (now now2 : DateTime)
    (h : (s.should_receive_reminder now alert).1 = true)
    (hle : now.toMicros ≤ now2.toMicros) :
    ((s.should_receive_reminder now alert).2.should_receive_reminder now2 alert).1 = true := by
  unfold UserAlertState.should_receive_reminder at h ⊢
  by_cases hs : s.status = NotificationStatus.snoozed
  · cases hu : s.snoozed_until with
    | none => simp [hs, hu] at h
    | some u =>
        by_cases hlt : now.toMicros > u.toMicros
        · cases hl : s.last_reminder_sent with
          | none => simp [hs, hu, hlt, hl]
          | some last =>
              simp [hs, hu, hlt, hl] at h ⊢
              omega
        · simp [hs, hu, hlt] at h
  · by_cases hr : s.status = NotificationStatus.read
    · simp [hs, hr] at h
    · cases hl : s.last_reminder_sent with
      | none => simp [hs, hr, hl]
      | some last =>
          simp [hs, hr, hl] at h ⊢
          omega

/-- What the per-recipient step stores under the processed key: the
state as the eligibility check left it, with `last_reminder_sent := now`
exactly when the pair was eligible and delivery succeeded. -/
theorem processUser_stored (deliver : Alert → String → Bool) (now : DateTime)
    (alert : Alert) (m : StateMap) (log : List (String × String)) (user_id : String)
    (hkey : ∀ s, m user_id alert.id = some s → s.user_id = user_id ∧ s.alert_id = alert.id) :
    (ReminderScheduler.processUser deliver now alert (m, log) user_id).1 user_id alert.id =
      some (if ((UserAlertStateManager.get_state m user_id alert.id).1.should_receive_reminder
                now alert).1 = true ∧ deliver alert user_id = true
        then { ((UserAlertStateManager.get_state m user_id alert.id).1.should_receive_reminder
                now alert).2 with last_reminder_sent := some now }
        else ((UserAlertStateManager.get_state m user_id alert.id).1.should_receive_reminder
                now alert).2) := by
  obtain ⟨hu, ha⟩ := get_state_key_fields m user_id alert.id hkey
  obtain ⟨hu1, ha1, _⟩ := should_receive_reminder_preserves_ids
    (UserAlertStateManager.get_state m user_id alert.id).1 now alert
  unfold ReminderScheduler.processUser
  cases helig : ((UserAlertStateManager.get_state m user_id alert.id).1.should_receive_reminder
      now alert).1 with
  | false =>
      simp only [helig, Bool.false_eq_true, if_neg, ite_false, false_and, if_false]
      unfold UserAlertStateManager.update_state
      simp [hu1, hu, ha1, ha]
  | true =>
      cases hdel : deliver alert user_id with
      | false =>
          simp only [helig, hdel, if_true, Bool.false_eq_true, if_false, and_false, ite_false]
          unfold UserAlertStateManager.update_state
          simp [hu1, hu, ha1, ha]
      | true =>
          simp only [helig, hdel, if_true, and_self, ite_true]
          unfold UserAlertStateManager.update_state
          simp [hu1, hu, ha1, ha]

/-- C6 counterexample: a failed delivery does not leave the record
unchanged over the sweep. The (u1, a1) record is snoozed until day 1;
a sweep at day 2 with an always-failing delivery capability makes
exactly one delivery attempt, and the stored record afterwards is
unread with snoozed-until cleared — the lazy snooze-expiry mutation of
the eligibility check persists in the store even though the delivery
failed, so the record differs from its pre-sweep value. -/
theorem failed_delivery_changes_state_concrete :
    mapSnoozedDay1 "u1" "a1" = some stateSnoozedDay1
    ∧ (ReminderScheduler.process_reminders (fun _ _ => false) ⟨2, 0, 0, 0, 0⟩ repoEmpty
        [alertLive] mapSnoozedDay1).2 = [("a1", "u1")]
    ∧ (ReminderScheduler.process_reminders (fun _ _ => false) ⟨2, 0, 0, 0, 0⟩ repoEmpty
        [alertLive] mapSnoozedDay1).1 "u1" "a1" =
        some { stateSnoozedDay1 with
               status := NotificationStatus.unread,
               snoozed_until := none }
    ∧ ({ stateSnoozedDay1 with
         status := NotificationStatus.unread,
         snoozed_until := none } : UserAlertState) ≠ stateSnoozedDay1 := by
  refine ⟨by decide, by decide, by decide, by decide⟩

/-- C6 amended: the failure branch itself writes nothing. When delivery
fails, the store keeps exactly the state the eligibility check left
behind (whose only possible difference from the pre-sweep record is the
documented lazy snooze-expiry transition), and in particular
`last_reminder_sent` is unchanged; that state evaluates eligible again
at every instant from `now` on, so the pair is retried on the
immediately following sweep; only a successful delivery stores the
state with `last_reminder_sent = now`. -/
theorem failed_delivery_defers_only (deliver : Alert → String → Bool) (now : DateTime)
    (alert : Alert) (m : StateMap) (log : List (String × String)) (user_id : String)
    (hkey : ∀ s, m user_id alert.id = some s →
      s.user_id = user_id ∧ s.alert_id = alert.id) :
    (deliver alert user_id = false →
      (ReminderScheduler.processUser deliver now alert (m, log) user_id).1 user_id
          alert.id =
        some ((UserAlertStateManager.get_state m user_id
          alert.id).1.should_receive_reminder now alert).2
      ∧ ((UserAlertStateManager.get_state m user_id
          alert.id).1.should_receive_reminder now alert).2.last_reminder_sent =
          (UserAlertStateManager.get_state m user_id alert.id).1.last_reminder_sent)
    ∧ (((UserAlertStateManager.get_state m user_id
          alert.id).1.should_receive_reminder now alert).1 = true →
        deliver alert user_id = true →
        (ReminderScheduler.processUser deliver now alert (m, log) user_id).1 user_id
            alert.id =
          some { ((UserAlertStateManager.get_state m user_id
                  alert.id).1.should_receive_reminder now alert).2 with
                 last_reminder_sent := some now })
    ∧ (((UserAlertStateManager.get_state m user_id
          alert.id).1.should_receive_reminder now alert).1 = true →
        ∀ now2 : DateTime, now.toMicros ≤ now2.toMicros →
          (((UserAlertStateManager.get_state m user_id
              alert.id).1.should_receive_reminder now
                alert).2.should_receive_reminder now2 alert).1 = true) := by
  refine ⟨?_, ?_, ?_⟩
  · intro hdel
    refine ⟨?_, (should_receive_reminder_preserves_ids _ now alert).2.2⟩
    rw [processUser_stored deliver now alert m log user_id hkey]
    simp [hdel]
  · intro helig hdel
    rw [processUser_stored deliver now alert m log user_id hkey]
    simp [helig, hdel]
  · intro helig now2 hle
    exact eligible_again_later _ alert now now2 helig hle

/-- C6 amended witness: the (u1, a1) record snoozed until day 1,
processed at day 2 with failing delivery: the store keeps the
checked state with its original (unset) `last_reminder_sent`, the pair
was eligible, and it is eligible again at day 3. -/
theorem failed_delivery_defers_only_witness :
    ((ReminderScheduler.processUser (fun _ _ => false) ⟨2, 0, 0, 0, 0⟩ alertLive
        (mapSnoozedDay1, []) "u1").1 "u1" alertLive.id =
      some ((UserAlertStateManager.get_state mapSnoozedDay1 "u1"
        alertLive.id).1.should_receive_reminder ⟨2, 0, 0, 0, 0⟩ alertLive).2
    ∧ ((UserAlertStateManager.get_state mapSnoozedDay1 "u1"
        alertLive.id).1.should_receive_reminder ⟨2, 0, 0, 0, 0⟩
          alertLive).2.last_reminder_sent =
        (UserAlertStateManager.get_state mapSnoozedDay1 "u1"
          alertLive.id).1.last_reminder_sent)
    ∧ (((UserAlertStateManager.get_state mapSnoozedDay1 "u1"
        alertLive.id).1.should_receive_reminder ⟨2, 0, 0, 0, 0⟩ alertLive).1 = true
      ∧ (((UserAlertStateManager.get_state mapSnoozedDay1 "u1"
          alertLive.id).1.should_receive_reminder ⟨2, 0, 0, 0, 0⟩
            alertLive).2.should_receive_reminder ⟨3, 0, 0, 0, 0⟩ alertLive).1 = true) := by
  have h := failed_delivery_defers_only (fun _ _ => false) ⟨2, 0, 0, 0, 0⟩ alertLive
    mapSnoozedDay1 [] "u1" (fun s hs => by
      have h0 : mapSnoozedDay1 "u1" alertLive.id = some stateSnoozedDay1 := rfl
      rw [h0] at hs
      cases hs
      exact ⟨rfl, rfl⟩)
  exact ⟨h.1 rfl, by decide, h.2.2 (by decide) ⟨3, 0, 0, 0, 0⟩ (by decide)⟩

end Alerting
